import Mathlib

/-!
Verification development for the core of the Social Interaction Cloud (SIC)
framework.  The definitions below are a shallow embedding, translated from
the Python sources in `sic_framework/core/`:

* `message_python2.py`  — the message envelope (`SICMessage.serialize` /
  `SICMessage.deserialize`), message equality (`SICMessage.__eq__`);
* `sic_redis.py`        — the request/reply layer (`SICRedis.request`,
  `SICRedis.register_request_handler`, `SICRedis._reply`);
* `service_python2.py`  — the bounded `MessageQueue` and the timestamp
  alignment engine of `SICService`;
* `component_python2.py`— `SICComponent._handle_message`, `SICComponent.stop`,
  `SICComponent._parse_conf`;
* `component_manager_python2.py` — `SICComponentManager.stop_component` and
  the channel derivation of `start_component`;
* `utils.py`            — `is_sic_instance`, `create_data_stream_id`.

Python `None` is modelled with `Option`; timestamps carried by service
messages are rationals (the alignment threshold is 0.5 s); request ids are
integers (the wire format is a signed 64-bit field, generated ids lie in
1 .. 2^63 − 1 and the ignore sentinel is −1, so no wraparound occurs).
-/

/-! ### Class-name based instance check (`utils.is_sic_instance`)

`is_sic_instance(obj, cls)` walks `obj.__class__.__mro__` and compares each
parent's `__name__` with `cls.__name__`.  An object is therefore modelled by
the list of class names of its method resolution order. -/

def is_sic_instance (mroNames : List String) (clsName : String) : Bool :=
  mroNames.contains clsName

/-! ### Message envelope (`message_python2.py`)

`MESSAGE_TYPE_REGISTRY` maps a protobuf oneof field name to a message
class; all nine registered kinds are embedded.  Six carry plain scalar
payload fields; the other three carry non-scalar codecs, modelled as
follows:

* `sic_conf_message` (`SICConfMessage`): `to_proto` stores the class name
  under `_conf_class` and `str(value)` for every `int`/`float`/`str`/`bool`
  instance field; `from_proto` re-parses each entry with `json.loads` and,
  when that fails, falls back to `infer_type` — a name defined nowhere in
  the repository, so the fallback raises `NameError`.  Config field values
  are modelled as integers (whose `str` → `json.loads` cycle is
  value-preserving) and booleans (whose `str(True)` / `str(False)` strings
  are not JSON, so deserialization hits the `NameError` fallback).
  `float` and `str` field values are outside the model: their fate depends
  on Python `repr` and the `json` string grammar (a `str` field may come
  back as an `int`, survive unchanged, or raise), not on the envelope
  contract.
* `compressed_image_message` (`CompressedImageMessage`): the wire carries
  JPEG bytes; `to_proto` passes a `bytes` image through unchanged and
  re-encodes an `ndarray` image, and `from_proto` always decodes the wire
  bytes into an `ndarray`.  The lossy codec is left uninterpreted: JPEG
  values are free terms over literal byte strings, `turbojpeg.encode` and
  `turbojpeg.decode` (`JpegVal`), and the only fact any theorem uses is
  that a decode result (an `ndarray`) is not a byte string — true in
  Python by type.
* `sic_start_component_request` (`SICStartComponentRequest`): `conf` is a
  nested configuration; `to_proto` skips a `None` conf (the base
  `to_proto` loop skips `None` values, leaving the proto field at its
  empty default map), and `from_proto` unconditionally rebuilds a
  configuration object from that map, so `conf = None` comes back as a
  `SICConfMessage` instance. -/

/-- A config field value (`int` or `bool`; see the section comment for why
`float` and `str` are outside the model). -/
inductive ConfFieldVal where
  | intVal (n : Int)
  | boolVal (b : Bool)
  deriving DecidableEq

/-- A Python configuration object as the envelope sees it: its class name
(written to the wire under `_conf_class`) and its instance fields.  The
proto `config` map is modelled as an association list in entry order. -/
structure ConfVal where
  className : String
  fields : List (String × ConfFieldVal)
  deriving DecidableEq

/-- JPEG image values as free terms over the uninterpreted lossy codec: a
literal byte string, `turbojpeg.encode` applied to an array, or
`turbojpeg.decode` applied to bytes (the latter is an `ndarray`, not a
`bytes` value). -/
inductive JpegVal where
  | byteString (data : List Nat)
  | encodeArray (a : JpegVal)
  | decodeBytes (b : JpegVal)
  deriving DecidableEq

/-- The payload of each kind registered in `MESSAGE_TYPE_REGISTRY`, one
constructor per registered kind. -/
inductive SICPayload where
  | pingRequest
  | pongMessage
  | successMessage
  | ignoreRequestMessage
  | logMessage (msg : String)
  | componentStarted (output_channel : String) (request_reply_channel : String)
  | confMessage (conf : ConfVal)
  | compressedImage (image : JpegVal)
  | startComponentRequest (component_name : String) (log_level : Int)
      (input_channel : String) (client_id : String) (conf : Option ConfVal)
  deriving DecidableEq

/-- The nine keys of `MESSAGE_TYPE_REGISTRY`, in the order of the
`@register_message_type` decorations in message_python2.py. -/
def MESSAGE_TYPE_REGISTRY : List String :=
  ["sic_conf_message", "sic_ping_request", "sic_pong_message",
   "sic_success_message", "sic_ignore_request_message",
   "compressed_image_message", "sic_log_message",
   "sic_start_component_request", "sic_component_started_message"]

/-- The registry key (`_proto_field_name`) of each embedded payload. -/
def SICPayload.proto_field_name : SICPayload → String
  | SICPayload.pingRequest => "sic_ping_request"
  | SICPayload.pongMessage => "sic_pong_message"
  | SICPayload.successMessage => "sic_success_message"
  | SICPayload.ignoreRequestMessage => "sic_ignore_request_message"
  | SICPayload.logMessage _ => "sic_log_message"
  | SICPayload.componentStarted _ _ => "sic_component_started_message"
  | SICPayload.confMessage _ => "sic_conf_message"
  | SICPayload.compressedImage _ => "compressed_image_message"
  | SICPayload.startComponentRequest _ _ _ _ _ => "sic_start_component_request"

structure RMsg where
  mro : List String
  request_id : Option Int
  deriving DecidableEq

/-- A message is a request when `SICRequest` appears in its class ancestry
(`is_sic_instance(m, SICRequest)`). -/
def RMsg.isRequest (m : RMsg) : Bool :=
  is_sic_instance m.mro "SICRequest"

/-- A message is a `SICMessage` when that class appears in its ancestry. -/
def RMsg.isSICMessage (m : RMsg) : Bool :=
  is_sic_instance m.mro "SICMessage"

/-- Redis pub/sub operations performed by `SICRedis.request`, in order. -/
inductive RedisOp where
  | subscribe (channel : String)
  | publish (channel : String)
  | unsubscribe (channel : String)
  deriving DecidableEq

/-- The one-shot filter `await_reply` inside `SICRedis.request` (sic_redis.py
lines 305-313): accept a message that is not itself a `SICRequest` and whose
`_request_id` equals the request's `_request_id`. -/
def awaitReplyAccepts (request m : RMsg) : Bool :=
  !m.isRequest && m.request_id == request.request_id

/-- Outcome of one call to `SICRedis.request`, together with the trace of
pub/sub operations the call performed. -/
inductive RequestResult where
  | valueError
  | noWait (trace : List RedisOp)
  | timeout (trace : List RedisOp)
  | reply (trace : List RedisOp) (r : RMsg)
  deriving DecidableEq

/-- Embedded `SICRedis.request` (sic_redis.py lines 276-337).  `arrivals` is the
sequence of messages delivered on `channel` within the timeout window, in
delivery order.  Control flow of the source: raise `ValueError` when the
request id is unset; when blocking, first `register_message_handler` on the
same channel (subscribe), then `send_message` (publish); `done.wait(timeout)`
— when no arrival passes `await_reply`, `TimeoutError` is raised
immediately, before the `unregister_callback` call that only the success
path reaches; on success the handler is unsubscribed and the first accepted
arrival is returned.  When `block` is false, the request is published
without subscribing and `None` is returned. -/
def SICRedis.request (channel : String) (request : RMsg) (arrivals : List RMsg)
    (block : Bool) : RequestResult :=
  if request.request_id = none then
    RequestResult.valueError
  else if block then
    match arrivals.find? (awaitReplyAccepts request) with
    | some r =>
        RequestResult.reply
          [RedisOp.subscribe channel, RedisOp.publish channel, RedisOp.unsubscribe channel] r
    | none =>
        RequestResult.timeout [RedisOp.subscribe channel, RedisOp.publish channel]
  else
    RequestResult.noWait [RedisOp.publish channel]

/-- Concrete request used for the timeout counterexample: a
`SICPingRequest` with request id 7. -/
def pingRequest7 : RMsg :=
  { mro := ["SICPingRequest", "SICControlRequest", "SICRequest", "SICMessage"]
    request_id := some 7 }

/-- Embedded `SICRedis._reply` (sic_redis.py lines 386-404): copy the request's id
onto the reply when the reply's id is unset (`None`), otherwise send the
reply unchanged. -/
def SICRedis._reply (request reply : RMsg) : RMsg :=
  if reply.request_id = none then
    { reply with request_id := request.request_id }
  else
    reply

/-- The `wrapped_callback` installed by `SICRedis.register_request_handler`
(sic_redis.py lines 339-365): a non-request incoming message produces no
reply; for a request the handler runs, its return value is asserted to be a
`SICMessage` that is not a `SICRequest` (an assertion failure publishes
nothing), and `_reply` publishes the result on the same channel.  The
returned value is the message published back, if any. -/
def SICRedis.request_handler_callback (callback : RMsg → RMsg) (incoming : RMsg) :
    Option RMsg :=
  if incoming.isRequest then
    let reply := callback incoming
    if !reply.isRequest && reply.isSICMessage then
      some (SICRedis._reply incoming reply)
    else
      none
  else
    none

/-! ### Service message buffers and alignment (`service_python2.py`)

A message buffered by a service is keyed by `(get_message_name(),
_previous_component_name)`; within one buffer all messages share the same
class name.  Timestamps are rationals (the alignment threshold
`MAX_TIMESTAMP_DIFF_SECONDS` is 0.5); `tag` identifies the payload. -/

structure SMsg where
  name : String
  prev : String
  timestamp : ℚ
  tag : Nat
  deriving DecidableEq

/-- Embedded `SICService.MAX_TIMESTAMP_DIFF_SECONDS = 0.5` (as the rational 1/2). -/
def MAX_TIMESTAMP_DIFF_SECONDS : ℚ := mkRat 1 2

/-- Embedded `SICService.MAX_MESSAGE_BUFFER_SIZE = 10`. -/
def MAX_MESSAGE_BUFFER_SIZE : Nat := 10

/-- Python's binary `min`: the first argument when the two compare equal. -/
def pyMin2 (a b : ℚ) : ℚ :=
  if a ≤ b then a else b

/-- Python's `abs` on a rational. -/
def qAbs (a : ℚ) : ℚ :=
  if a < 0 then -a else a

/-- Exact rational subtraction, written out by cross-multiplication; equal
to `a - b` (theorem `qSub_eq_sub` below). -/
def qSub (a b : ℚ) : ℚ :=
  Rat.normalize (a.num * b.den - b.num * a.den) (a.den * b.den)
    (Nat.mul_ne_zero a.den_nz b.den_nz)

/-- Python `min` on a list: `None` for the empty list (where Python raises
`ValueError`), otherwise the least element. -/
def pyMinQ : List ℚ → Option ℚ
  | [] => none
  | x :: xs => some (xs.foldl pyMin2 x)

/-- The front element (`buffer[0]`) of every buffer; `none` as soon as one
buffer is empty (Python raises `IndexError`, turned into
`AlignmentError`).  Buffers store newest first: `appendleft` prepends. -/
def headsOf : List (List SMsg) → Option (List SMsg)
  | [] => some []
  | b :: bs =>
    match b.head?, headsOf bs with
    | some h, some hs => some (h :: hs)
    | _, _ => none

/-- Embedded `SICService._get_reference_timestamp` (service_python2.py lines
237-252): the minimum, over all input buffers, of `buffer[0]._timestamp`
(the newest message of each buffer). -/
def SICService._get_reference_timestamp (buffers : List (List SMsg)) : Option ℚ :=
  match headsOf buffers with
  | none => none
  | some heads => pyMinQ (heads.map SMsg.timestamp)

/-- Embedded `SICService._find_aligned_message` (lines 274-286): the first message in
the buffer (newest first) whose timestamp is within
`MAX_TIMESTAMP_DIFF_SECONDS` of the reference timestamp. -/
def SICService._find_aligned_message (buffer : List SMsg) (reference : ℚ) : Option SMsg :=
  buffer.find? (fun m => qAbs (qSub m.timestamp reference) ≤ MAX_TIMESTAMP_DIFF_SECONDS)

/-- Embedded `SICService._collect_aligned_messages` (lines 254-272): one aligned
message per buffer, or `none` if some buffer has no aligned message
(`AlignmentError`). -/
def SICService._collect_aligned_messages :
    List (List SMsg) → ℚ → Option (List SMsg)
  | [], _ => some []
  | b :: bs, reference =>
    match SICService._find_aligned_message b reference,
          SICService._collect_aligned_messages bs reference with
    | some m, some ms => some (m :: ms)
    | _, _ => none

/-- Embedded `SICMessage.__eq__` (message_python2.py lines 318-331): messages compare
equal by class name only. -/
def sicMessageNameEq (a b : SMsg) : Bool :=
  a.name == b.name

/-- Python `deque.remove(m)`: remove the first element comparing equal to
`m` — under `SICMessage.__eq__` equality is by class name. -/
def pyRemove : List SMsg → SMsg → List SMsg
  | [], _ => []
  | x :: xs, m => if sicMessageNameEq x m then xs else x :: pyRemove xs m

/-- Embedded `SICService._consume_messages` (lines 288-291): remove each selected
message from its buffer. -/
def SICService._consume_messages (buffers : List (List SMsg)) (msgs : List SMsg) :
    List (List SMsg) :=
  List.zipWith pyRemove buffers msgs

/-- Embedded `SICService._pop_aligned_messages` (lines 198-216) together with the
`_validate_buffers_ready` guard (lines 226-235): check that one buffer
exists per declared input, compute the reference timestamp, collect one
aligned message per buffer, consume them; returns the selected messages,
the reference timestamp and the remaining buffers, or `none` when an
`AlignmentError` defers the round. -/
def SICService._pop_aligned_messages (expectedInputCount : Nat)
    (buffers : List (List SMsg)) : Option (List SMsg × ℚ × List (List SMsg)) :=
  if buffers.length ≠ expectedInputCount then none
  else
    match SICService._get_reference_timestamp buffers with
    | none => none
    | some reference =>
      match SICService._collect_aligned_messages buffers reference with
      | none => none
      | some msgs =>
        some (msgs, reference, SICService._consume_messages buffers msgs)

/-- Embedded `SICComponent.output_message` (component_python2.py lines 241-251):
stamp the component's name as `_previous_component_name` and publish on the
output channel; the timestamp is left untouched. -/
def SICComponent.output_message (componentName : String) (m : SMsg) : SMsg :=
  { m with prev := componentName }

/-- Embedded `SICService._process_and_output` (service_python2.py lines 334-341):
run `execute`; when it returns a (truthy) message, set the message's
`_timestamp` to the reference timestamp and publish it via
`output_message`. -/
def SICService._process_and_output (componentName : String)
    (executeOutput : Option SMsg) (timestamp : ℚ) : Option SMsg :=
  match executeOutput with
  | none => none
  | some output =>
    some (SICComponent.output_message componentName { output with timestamp := timestamp })

/-! ### Bounded message buffer (`MessageQueue`, service_python2.py lines 21-52) -/

/-- Embedded `MessageQueue.DROP_WARNING_THRESHOLDS = {5, 10, 50, 100, 200, 1000,
5000, 10000}`. -/
def DROP_WARNING_THRESHOLDS : List Nat :=
  [5, 10, 50, 100, 200, 1000, 5000, 10000]

/-- A `MessageQueue`: a `collections.deque` with a `maxlen`, plus the drop
counter and the list of counter values at which a drop warning was logged
(in logging order).  `items` holds the buffered messages newest first
(index 0 is the most recent `appendleft`). -/
structure MessageQueue (α : Type) where
  maxlen : Nat
  items : List α
  dropped_messages_counter : Nat
  warnings : List Nat
  deriving DecidableEq

/-- A fresh `MessageQueue(logger, maxlen)`. -/
def MessageQueue.new (α : Type) (maxlen : Nat) : MessageQueue α :=
  { maxlen := maxlen, items := [], dropped_messages_counter := 0, warnings := [] }

/-- Embedded `MessageQueue.appendleft` (lines 37-52): when the deque is full
(`len(self) == self.maxlen`) the drop counter is incremented and a warning
is logged exactly when the counter lands on a threshold; then the deque
`appendleft` runs, which prepends the message and — by the `maxlen` ring
semantics — evicts the oldest (rightmost) element when at capacity. -/
def MessageQueue.appendleft (q : MessageQueue α) (message : α) : MessageQueue α :=
  let q1 :=
    if q.items.length == q.maxlen then
      let d := q.dropped_messages_counter + 1
      { q with
        dropped_messages_counter := d
        warnings := if DROP_WARNING_THRESHOLDS.contains d then q.warnings ++ [d] else q.warnings }
    else q
  { q1 with items := (message :: q1.items).take q1.maxlen }

/-- Push a whole list of messages, oldest first, with no consumption. -/
def MessageQueue.pushAll (q : MessageQueue α) (messages : List α) : MessageQueue α :=
  messages.foldl MessageQueue.appendleft q

/-! ### Component input validation (`SICComponent._handle_message`,
component_python2.py lines 303-342) -/

/-- Outcome of `_handle_message`: whether a warning was logged, whether
`on_message` was invoked, and the returned value (`none` both for the
drop path, which returns Python `None`, and when the result type is not
produced). -/
structure HandleOutcome (β : Type) where
  warned : Bool
  invokedOnMessage : Bool
  result : Option β
  deriving DecidableEq

/-- Embedded `SICComponent._handle_message`: with declared inputs (the class names
returned by `get_inputs()`), a message whose class-name ancestry matches no
declared input is dropped with a warning and `None` is returned without
invoking `on_message`; otherwise `on_message` runs and its result is
returned.  With an empty declared input list the message is forwarded
as-is. -/
def SICComponent._handle_message (declaredInputs : List String) (msgMro : List String)
    (onMessage : Unit → β) : HandleOutcome β :=
  if declaredInputs.isEmpty then
    { warned := false, invokedOnMessage := true, result := some (onMessage ()) }
  else if declaredInputs.any (fun inputCls => is_sic_instance msgMro inputCls) then
    { warned := false, invokedOnMessage := true, result := some (onMessage ()) }
  else
    { warned := true, invokedOnMessage := false, result := none }

/-! ### Component stop (`SICComponent.stop`, component_python2.py lines
165-192) -/

/-- Embedded `SICComponent.COMPONENT_STOP_TIMEOUT = 2` seconds. -/
def COMPONENT_STOP_TIMEOUT : Nat := 2

/-- The observable steps of `SICComponent.stop`, in execution order.  The
wait events carry the timeout (in seconds) passed to `Event.wait`. -/
inductive StopEvent where
  | setStopSignal
  | waitStopped (timeoutSeconds : Nat)
  | waitNoActiveCalls (timeoutSeconds : Nat)
  | runCleanup
  | warnSkippedCleanup
  deriving DecidableEq

/-- Embedded `SICComponent.stop`, as the ordered trace of its steps.
`stoppedInTime` is the result of `self._stopped.wait(COMPONENT_STOP_TIMEOUT)`:
whether the worker confirmed the stop within the timeout.  When it did, the
method waits (up to the same timeout) on `_no_active_calls` and then runs
`_cleanup()`; when it did not, cleanup is skipped and a warning logged. -/
def SICComponent.stop (stoppedInTime : Bool) : List StopEvent :=
  [StopEvent.setStopSignal, StopEvent.waitStopped COMPONENT_STOP_TIMEOUT] ++
    (if stoppedInTime then
      [StopEvent.waitNoActiveCalls COMPONENT_STOP_TIMEOUT, StopEvent.runCleanup]
    else
      [StopEvent.warnSkippedCleanup])

/-! ### Configuration parsing (`SICComponent._parse_conf`,
component_python2.py lines 390-408) -/

/-- A Python configuration object: its class name, its class-name ancestry
and its instance fields (field name, value). -/
structure PyConf where
  className : String
  mro : List String
  fields : List (String × Int)
  deriving DecidableEq

/-- Embedded `SICMessage.__eq__` applied to a configuration and the current
`self.params` (which is `None` before the first configuration): equality is
by class name alone; comparing with an object without `get_message_name`
(such as `None`) yields `False`. -/
def sicConfEq (conf : PyConf) (params : Option PyConf) : Bool :=
  match params with
  | some p => conf.className == p.className
  | none => false

/-- Embedded `SICComponent._parse_conf`: when the new configuration compares equal
to the current `self.params` under `SICMessage.__eq__` (class-name
equality), `self.params` is left unchanged (only an info line is logged);
otherwise `self.params` is replaced by the new configuration.  The
source also asserts `is_sic_instance(conf, SICConfMessage)`; theorems track
this as a hypothesis on the ancestry. -/
def SICComponent._parse_conf (params : Option PyConf) (conf : PyConf) : Option PyConf :=
  if sicConfEq conf params then params else some conf

/-- Embedded `SICComponent.set_config` (lines 203-217): parse the given
configuration, or the component's default configuration when `None` is
given. -/
def SICComponent.set_config (params : Option PyConf) (new : Option PyConf)
    (defaultConf : PyConf) : Option PyConf :=
  match new with
  | some conf => SICComponent._parse_conf params conf
  | none => SICComponent._parse_conf params defaultConf

/-! ### Component manager stop path (`component_manager_python2.py`)

The manager's live set `active_components` maps a component channel id to
the component; the shared key-value surface of the bus holds data-stream
descriptors and reservations.  The key-value methods of `SICRedis`
(`set_data_stream`, `unset_data_stream`, `set_reservation`,
`unset_reservation`) are called throughout `src/` but are not defined in
`src/sic_framework/core/sic_redis.py`; they are modelled from the spec
below. -/

/-- Modelled from the spec: the data-stream descriptor key
`data_stream:<componentChannel>` of the bus key-value surface (spec §6);
`SICRedis.set_data_stream` / `SICRedis.unset_data_stream` are absent from
`src/`. -/
def dataStreamKey (componentChannel : String) : String :=
  "data_stream:" ++ componentChannel

/-- Modelled from the spec: the reservation key
`reservation:<componentId>` of the bus key-value surface (spec §6);
`SICRedis.set_reservation` / `SICRedis.unset_reservation` are absent from
`src/`. -/
def reservationKey (componentId : String) : String :=
  "reservation:" ++ componentId

/-- Delete every entry stored under `key` (keys are unique in the store, so
this is the deletion of the single entry). -/
def kvDelete (kv : List (String × String)) (key : String) : List (String × String) :=
  kv.filter (fun entry => entry.1 != key)

/-- Modelled from the spec: `SICRedis.unset_data_stream(channel)` deletes
the `data_stream:<channel>` key ("set on start, delete on stop", spec §6). -/
def SICRedis.unset_data_stream (kv : List (String × String)) (componentChannel : String) :
    List (String × String) :=
  kvDelete kv (dataStreamKey componentChannel)

/-- A live component as far as the stop path observes it: its channel id
(the key in `active_components`) and its component id
`<ComponentName>:<deviceIP>` under which a reservation may be held. -/
structure ActiveComponent where
  component_channel : String
  component_id : String
  deriving DecidableEq

/-- Manager state: the bus key-value surface and the live-component map. -/
structure ManagerState where
  kv : List (String × String)
  active_components : List (String × ActiveComponent)
  deriving DecidableEq

/-- Association-list lookup for the live-component map
(`self.active_components[component_id]`). -/
def lookupComponent (components : List (String × ActiveComponent)) (componentId : String) :
    Option ActiveComponent :=
  (components.find? (fun entry => entry.1 == componentId)).map Prod.snd

/-- Replies the stop path can produce. -/
inductive ManagerReply where
  | success
  | ignoreRequest
  | notStarted
  deriving DecidableEq

/-- The `SICStopComponentRequest` branch of
`SICComponentManager._handle_request` (lines 407-425) followed by
`SICComponentManager.stop_component` (lines 248-288): an id not in
`active_components` is answered with `SICIgnoreRequestMessage` and nothing
changes; otherwise the component is stopped, its handler threads
unregistered, the `data_stream:<componentChannel>` key removed, the
component deleted from `active_components`, and `SICSuccessMessage`
returned.  No reservation key is touched on this path. -/
def SICComponentManager.stop_component_request (st : ManagerState)
    (componentId : String) : ManagerState × ManagerReply :=
  match lookupComponent st.active_components componentId with
  | none => (st, ManagerReply.ignoreRequest)
  | some component =>
    let kvAfter := SICRedis.unset_data_stream st.kv component.component_channel
    let activeAfter := st.active_components.filter (fun entry => entry.1 != componentId)
    ({ kv := kvAfter, active_components := activeAfter }, ManagerReply.success)

/-- Concrete manager state for the reservation counterexample: one live
camera component whose reservation and data-stream keys are both set. -/
def cameraManagerState : ManagerState :=
  { kv := [(dataStreamKey "abc123", "descriptor"),
           (reservationKey "CameraSensor:10.0.0.5", "client1")]
    active_components :=
      [("abc123", { component_channel := "abc123",
                    component_id := "CameraSensor:10.0.0.5" })] }

/-! ### Channel derivation (`utils.create_data_stream_id`, utils.py lines
158-180)

`create_data_stream_id` hashes `"<name>|<ip>|<input_stream>"` with SHA-256,
URL-safe-base64-encodes the digest and truncates to `length` characters.
SHA-256 and the base64 encoding are implemented concretely below over byte
lists (bytes are `Nat` values below 256; words are `Nat` values reduced
modulo `2 ^ 32`). -/

/-- Reduce to a 32-bit word. -/
def w32 (n : Nat) : Nat := n % 4294967296

/-- Right rotation of a 32-bit word. -/
def rotr32 (x n : Nat) : Nat := w32 ((x >>> n) ||| (x <<< (32 - n)))

def shaCh (x y z : Nat) : Nat := (x &&& y) ^^^ ((x ^^^ 4294967295) &&& z)

def shaMaj (x y z : Nat) : Nat := (x &&& y) ^^^ (x &&& z) ^^^ (y &&& z)

def bigSigma0 (x : Nat) : Nat := rotr32 x 2 ^^^ rotr32 x 13 ^^^ rotr32 x 22

def bigSigma1 (x : Nat) : Nat := rotr32 x 6 ^^^ rotr32 x 11 ^^^ rotr32 x 25

def smallSigma0 (x : Nat) : Nat := rotr32 x 7 ^^^ rotr32 x 18 ^^^ (x >>> 3)

def smallSigma1 (x : Nat) : Nat := rotr32 x 17 ^^^ rotr32 x 19 ^^^ (x >>> 10)

/-- The SHA-256 round constants. -/
def shaK : List Nat :=
  [1116352408, 1899447441, 3049323471, 3921009573, 961987163, 1508970993,
   2453635748, 2870763221, 3624381080, 310598401, 607225278, 1426881987,
   1925078388, 2162078206, 2614888103, 3248222580, 3835390401, 4022224774,
   264347078, 604807628, 770255983, 1249150122, 1555081692, 1996064986,
   2554220882, 2821834349, 2952996808, 3210313671, 3336571891, 3584528711,
   113926993, 338241895, 666307205, 773529912, 1294757372, 1396182291,
   1695183700, 1986661051, 2177026350, 2456956037, 2730485921, 2820302411,
   3259730800, 3345764771, 3516065817, 3600352804, 4094571909, 275423344,
   430227734, 506948616, 659060556, 883997877, 958139571, 1322822218,
   1537002063, 1747873779, 1955562222, 2024104815, 2227730452, 2361852424,
   2428436474, 2756734187, 3204031479, 3329325298]

/-- The SHA-256 working state (eight 32-bit words). -/
structure Hash8 where
  a : Nat
  b : Nat
  c : Nat
  d : Nat
  e : Nat
  f : Nat
  g : Nat
  h : Nat
  deriving DecidableEq

/-- The SHA-256 initial hash value. -/
def shaH0 : Hash8 :=
  { a := 1779033703, b := 3144134277, c := 1013904242, d := 2773480762,
    e := 1359893119, f := 2600822924, g := 528734635, h := 1541459225 }

/-- Big-endian byte rendering of a value in `numBytes` bytes. -/
def toBE (numBytes : Nat) (v : Nat) : List Nat :=
  (List.range numBytes).map (fun i => (v >>> (8 * (numBytes - 1 - i))) % 256)

/-- The sixteen 32-bit words of one 64-byte block. -/
def blockWords (block : List Nat) : List Nat :=
  (List.range 16).map (fun i =>
    (block.getD (4 * i) 0) <<< 24 ||| (block.getD (4 * i + 1) 0) <<< 16 |||
    (block.getD (4 * i + 2) 0) <<< 8 ||| block.getD (4 * i + 3) 0)

/-- Extend the sixteen block words to the 64-entry message schedule. -/
def extendSchedule (ws : List Nat) : List Nat :=
  (List.range 48).foldl
    (fun acc _ =>
      let n := acc.length
      acc ++ [w32 (smallSigma1 (acc.getD (n - 2) 0) + acc.getD (n - 7) 0 +
                   smallSigma0 (acc.getD (n - 15) 0) + acc.getD (n - 16) 0)])
    ws

/-- One round of the SHA-256 compression function. -/
def compressStep (st : Hash8) (wk : Nat × Nat) : Hash8 :=
  let t1 := w32 (st.h + bigSigma1 st.e + shaCh st.e st.f st.g + wk.1 + wk.2)
  let t2 := w32 (bigSigma0 st.a + shaMaj st.a st.b st.c)
  { a := w32 (t1 + t2), b := st.a, c := st.b, d := st.c,
    e := w32 (st.d + t1), f := st.e, g := st.f, h := st.g }

/-- Process one 64-byte block. -/
def processBlock (hv : Hash8) (block : List Nat) : Hash8 :=
  let ws := extendSchedule (blockWords block)
  let st := (ws.zip shaK).foldl compressStep hv
  { a := w32 (hv.a + st.a), b := w32 (hv.b + st.b), c := w32 (hv.c + st.c),
    d := w32 (hv.d + st.d), e := w32 (hv.e + st.e), f := w32 (hv.f + st.f),
    g := w32 (hv.g + st.g), h := w32 (hv.h + st.h) }

/-- Split a byte list into 64-byte chunks; the first argument is
structural-recursion fuel, sufficient whenever it is at least the number of
chunks (each step consumes at least one byte). -/
def chunks64Go : Nat → List Nat → List (List Nat)
  | 0, _ => []
  | _, [] => []
  | fuel + 1, x :: xs => (x :: xs).take 64 :: chunks64Go fuel ((x :: xs).drop 64)

/-- Split a byte list into 64-byte chunks. -/
def chunks64 (l : List Nat) : List (List Nat) :=
  chunks64Go l.length l

/-- Number of zero bytes of SHA-256 padding after the `128` byte. -/
def shaPadZeros (len : Nat) : Nat := (64 - (len + 9) % 64) % 64

/-- The SHA-256 digest (32 bytes) of a byte list. -/
def sha256 (msg : List Nat) : List Nat :=
  let padded := msg ++ 128 :: List.replicate (shaPadZeros msg.length) 0 ++
    toBE 8 (8 * msg.length)
  let hv := (chunks64 padded).foldl processBlock shaH0
  ([hv.a, hv.b, hv.c, hv.d, hv.e, hv.f, hv.g, hv.h].map (toBE 4)).flatten

/-- UTF-8 encoding of one Unicode scalar value. -/
def utf8EncodeChar (c : Char) : List Nat :=
  let v := c.toNat
  if v < 128 then [v]
  else if v < 2048 then [192 + v / 64, 128 + v % 64]
  else if v < 65536 then [224 + v / 4096, 128 + v / 64 % 64, 128 + v % 64]
  else [240 + v / 262144, 128 + v / 4096 % 64, 128 + v / 64 % 64, 128 + v % 64]

/-- UTF-8 encoding of a string (`str.encode("utf-8")`). -/
def utf8Encode (s : String) : List Nat :=
  (s.data.map utf8EncodeChar).flatten

/-- The URL-safe base64 alphabet of `base64.urlsafe_b64encode`. -/
def B64_URLSAFE_ALPHABET : String :=
  "ABCDEFGHIJKLMNOPQRSTUVWXYZabcdefghijklmnopqrstuvwxyz0123456789-_"

/-- The URL-safe base64 digit for a 6-bit value. -/
def b64Digit (i : Nat) : Char :=
  B64_URLSAFE_ALPHABET.data.getD i 'A'

/-- URL-safe base64 encoding of a byte list, with `=` padding. -/
def urlsafe_b64encode : List Nat → List Char
  | [] => []
  | [b1] => [b64Digit (b1 / 4), b64Digit (b1 % 4 * 16), '=', '=']
  | [b1, b2] =>
    [b64Digit (b1 / 4), b64Digit (b1 % 4 * 16 + b2 / 16), b64Digit (b2 % 16 * 4), '=']
  | b1 :: b2 :: b3 :: rest =>
    b64Digit (b1 / 4) :: b64Digit (b1 % 4 * 16 + b2 / 16) ::
      b64Digit (b2 % 16 * 4 + b3 / 64) :: b64Digit (b3 % 64) ::
      urlsafe_b64encode rest

/-- Embedded `utils.create_data_stream_id(component_name, component_ip, input_stream,
length)`: SHA-256 the string `"<name>|<ip>|<input_stream>"`, URL-safe
base64-encode the digest, and keep the first `length` characters.  The
source gives `length` the default 16. -/
def create_data_stream_id (component_name component_ip input_stream : String)
    (length : Nat) : String :=
  let combined := component_name ++ "|" ++ component_ip ++ "|" ++ input_stream
  let encoded := String.mk (urlsafe_b64encode (sha256 (utf8Encode combined)))
  encoded.take length

/-- Modelled from the spec: the channel-name grammar of §6 in the spec's own
words — `componentChannel` is a fingerprint over `name | ip | inputStream`
("URL-safe base64 over SHA-256", "truncated to 16 characters") and
`requestReplyChannel` appends `":request_reply"`. -/
def specChannelDerivation (name ip inputStream : String) : String × String :=
  let fingerprint :=
    (String.mk (urlsafe_b64encode (sha256 (utf8Encode
      (name ++ "|" ++ ip ++ "|" ++ inputStream))))).take 16
  (fingerprint, fingerprint ++ ":request_reply")

/-- A Python call of `create_data_stream_id` with a positional argument
list.  The signature in utils.py has three required positional parameters
and the optional `length`; any other arity raises `TypeError`, modelled as
`none`. -/
def callCreateDataStreamId (args : List String) : Option String :=
  match args with
  | [a, b, c] => some (create_data_stream_id a b c 16)
  | _ => none

/-- Embedded `SICComponentManager.start_component` lines 160-166: the component
endpoint is `<ComponentName>:<deviceIP>`, and the channel pair is derived
by `create_data_stream_id(component_endpoint, input_channel)` — a call with
only two of the three required positional arguments — followed by appending
`":request_reply"`.  The `TypeError` of the underfilled call propagates
(`none`): the channels are never produced. -/
def SICComponentManager.start_component_channels (component_name ip input_channel : String) :
    Option (String × String) :=
  let component_endpoint := component_name ++ ":" ++ ip
  match callCreateDataStreamId [component_endpoint, input_channel] with
  | none => none
  | some component_channel => some (component_channel, component_channel ++ ":request_reply")

/-! ### Concrete inputs used by witnesses and counterexamples -/

/-- A `SICPongMessage` reply carrying request id 7. -/
def pongReply7 : RMsg :=
  { mro := ["SICPongMessage", "SICControlMessage", "SICMessage"]
    request_id := some 7 }

/-- A freshly constructed `SICSuccessMessage()`: request id unset. -/
def freshSuccessMessage : RMsg :=
  { mro := ["SICSuccessMessage", "SICControlMessage", "SICMessage"]
    request_id := none }

/-- The success message after `_reply` copied request id 7 onto it. -/
def successReply7 : RMsg :=
  { mro := ["SICSuccessMessage", "SICControlMessage", "SICMessage"]
    request_id := some 7 }

/-! ## Theorems -/

/-! ### Sanity anchors for the concrete hash pipeline

The SHA-256, UTF-8 and URL-safe base64 implementations agree with the
standard test vectors and with `hashlib` / `base64` on the inputs below. -/

set_option maxRecDepth 4000

/-- SHA-256 of the empty byte string (FIPS 180 test vector). -/
theorem sha256_empty_vector :
    sha256 [] =
      [227, 176, 196, 66, 152, 252, 28, 20, 154, 251, 244, 200, 153, 111, 185, 36,
       39, 174, 65, 228, 100, 155, 147, 76, 164, 149, 153, 27, 120, 82, 184, 85] := by
  decide

/-- SHA-256 of `"abc"` (FIPS 180 test vector). -/
theorem sha256_abc_vector :
    sha256 (utf8Encode "abc") =
      [186, 120, 22, 191, 143, 1, 207, 234, 65, 65, 64, 222, 93, 174, 34, 35,
       176, 3, 97, 163, 150, 23, 122, 156, 180, 16, 255, 97, 242, 0, 21, 173] := by
  decide

/-- Embedded `create_data_stream_id` agrees with
`hashlib.sha256` + `base64.urlsafe_b64encode` on a concrete input. -/
theorem create_data_stream_id_vector :
    create_data_stream_id "EchoComponent:10.0.0.5" "10.0.0.5" "cam" 16 =
      "PcjNiEyuEdXiJfUo" := by
  decide

/-! ### C1 — envelope round-trip -/

/-- Sanity: every key of `MESSAGE_TYPE_REGISTRY` is the registry key of
some embedded payload — no registered kind is outside the embedding. -/
theorem registry_kinds_all_embedded :
    ∀ kind ∈ MESSAGE_TYPE_REGISTRY, ∃ p : SICPayload, p.proto_field_name = kind := by
  intro kind hk
  simp only [MESSAGE_TYPE_REGISTRY, List.mem_cons, List.not_mem_nil, or_false] at hk
  rcases hk with rfl | rfl | rfl | rfl | rfl | rfl | rfl | rfl | rfl
  · exact ⟨SICPayload.confMessage ⟨"SICConfMessage", []⟩, rfl⟩
  · exact ⟨SICPayload.pingRequest, rfl⟩
  · exact ⟨SICPayload.pongMessage, rfl⟩
  · exact ⟨SICPayload.successMessage, rfl⟩
  · exact ⟨SICPayload.ignoreRequestMessage, rfl⟩
  · exact ⟨SICPayload.compressedImage (JpegVal.byteString []), rfl⟩
  · exact ⟨SICPayload.logMessage "", rfl⟩
  · exact ⟨SICPayload.startComponentRequest "" 0 "" "" none, rfl⟩
  · exact ⟨SICPayload.componentStarted "" "", rfl⟩

/-- C3: for every request handled by a handler registered through
`SICRedis.register_request_handler`, if the handler's reply has an unset
request id (the class default of every non-request message) or the `−1`
ignore sentinel of `SICIgnoreRequestMessage`, then the reply published back
on the channel satisfies `r._request_id == q._request_id` or
`r._request_id == −1`: `_reply` copies the request's id onto a reply whose
id is unset and leaves a set id (the sentinel in particular) unchanged. -/
theorem reply_inherits_request_id_or_sentinel (callback : RMsg → RMsg)
    (incoming published : RMsg)
    (hpub : SICRedis.request_handler_callback callback incoming = some published)
    (hid : (callback incoming).request_id = none ∨
      (callback incoming).request_id = some (-1)) :
    published.request_id = incoming.request_id ∨ published.request_id = some (-1) := by
  unfold SICRedis.request_handler_callback at hpub
  by_cases hreq : incoming.isRequest
  · simp only [hreq, if_true] at hpub
    by_cases hvalid : (!(callback incoming).isRequest && (callback incoming).isSICMessage) = true
    · simp only [hvalid, if_true, Option.some.injEq] at hpub
      subst hpub
      unfold SICRedis._reply
      rcases hid with hnone | hsentinel
      · left
        simp [hnone]
      · right
        simp [hsentinel]
    · simp [hvalid] at hpub
  · simp [hreq] at hpub

/-- C3 witness: a handler returning a fresh `SICSuccessMessage` (request id
unset) produces a published reply carrying the ping request's id 7. -/
theorem reply_inherits_request_id_witness :
    SICRedis.request_handler_callback (fun _ => freshSuccessMessage) pingRequest7 =
      some successReply7 ∧
    (successReply7.request_id = pingRequest7.request_id ∨
      successReply7.request_id = some (-1)) :=
  ⟨by decide,
    reply_inherits_request_id_or_sentinel (fun _ => freshSuccessMessage) pingRequest7
      successReply7 (by decide) (Or.inl (by decide))⟩

/-! ### C5 — channel derivation -/

/-- C5: `create_data_stream_id(name, ip, input_stream)` is exactly the
derivation of the spec's channel-name grammar — the first 16 characters of
the URL-safe base64 encoding of the SHA-256 digest of
`"name|ip|input_stream"`, with `":request_reply"` appended for the
request/reply channel (determinism holds because it is a function of the
inputs).  However, the manager's `start_component` invokes
`create_data_stream_id` with only two of its three required positional
arguments, so at runtime the call raises `TypeError` and the manager never
derives any channel. -/
theorem channel_derivation_matches_spec_but_manager_call_raises :
    (∀ name ip inputStream : String,
      (create_data_stream_id name ip inputStream 16,
        create_data_stream_id name ip inputStream 16 ++ ":request_reply") =
        specChannelDerivation name ip inputStream) ∧
    (∀ component_name ip input_channel : String,
      SICComponentManager.start_component_channels component_name ip input_channel =
        none) :=
  ⟨fun _ _ _ => rfl, fun _ _ _ => rfl⟩

/-! ### C9 — stop confirms before cleanup -/

/-- C9: `SICComponent.stop` sets the stop signal, then runs `_cleanup()` if
and only if the worker's `_stopped` event was confirmed within
`COMPONENT_STOP_TIMEOUT`; when confirmed it first waits (with the same
timeout) on the no-active-calls event and only then cleans up; when not
confirmed, cleanup is skipped and a warning is logged instead. -/
theorem stop_cleanup_iff_stopped_confirmed :
    (∀ stoppedInTime : Bool,
      (StopEvent.runCleanup ∈ SICComponent.stop stoppedInTime ↔ stoppedInTime = true) ∧
      (StopEvent.warnSkippedCleanup ∈ SICComponent.stop stoppedInTime ↔
        stoppedInTime = false)) ∧
    SICComponent.stop true =
      [StopEvent.setStopSignal, StopEvent.waitStopped COMPONENT_STOP_TIMEOUT,
       StopEvent.waitNoActiveCalls COMPONENT_STOP_TIMEOUT, StopEvent.runCleanup] ∧
    SICComponent.stop false =
      [StopEvent.setStopSignal, StopEvent.waitStopped COMPONENT_STOP_TIMEOUT,
       StopEvent.warnSkippedCleanup] := by
  decide

/-! ### C10 — reconfiguration compares by class name only -/

/-- C10: because `SICMessage.__eq__` compares class names only,
`set_config` with a configuration whose class name equals the current
`params`' class name leaves `params` unchanged — even when the new
configuration carries different field values — and `params` is replaced
exactly when the class name differs. -/
theorem set_config_class_name_decides_update (params conf defaultConf : PyConf)
    (_hconf : "SICConfMessage" ∈ conf.mro) :
    (conf.className = params.className →
      SICComponent.set_config (some params) (some conf) defaultConf = some params) ∧
    (conf.className ≠ params.className →
      SICComponent.set_config (some params) (some conf) defaultConf = some conf) := by
  unfold SICComponent.set_config SICComponent._parse_conf sicConfEq
  constructor
  · intro h
    simp [h]
  · intro h
    simp [h]

/-- C10 witness: two `NaoqiCameraConf` objects with different field values;
`set_config` keeps the old `params`. -/
theorem set_config_class_name_witness :
    "SICConfMessage" ∈
      (⟨"NaoqiCameraConf", ["NaoqiCameraConf", "SICConfMessage", "SICMessage"],
        [("res", 4)]⟩ : PyConf).mro ∧
    (⟨"NaoqiCameraConf", ["NaoqiCameraConf", "SICConfMessage", "SICMessage"],
        [("res", 4)]⟩ : PyConf).fields ≠
      (⟨"NaoqiCameraConf", ["NaoqiCameraConf", "SICConfMessage", "SICMessage"],
        [("res", 2)]⟩ : PyConf).fields ∧
    SICComponent.set_config
        (some ⟨"NaoqiCameraConf", ["NaoqiCameraConf", "SICConfMessage", "SICMessage"],
          [("res", 2)]⟩)
        (some ⟨"NaoqiCameraConf", ["NaoqiCameraConf", "SICConfMessage", "SICMessage"],
          [("res", 4)]⟩)
        ⟨"SICConfMessage", ["SICConfMessage", "SICMessage"], []⟩ =
      some ⟨"NaoqiCameraConf", ["NaoqiCameraConf", "SICConfMessage", "SICMessage"],
        [("res", 2)]⟩ :=
  ⟨by decide, by decide,
    (set_config_class_name_decides_update
      ⟨"NaoqiCameraConf", ["NaoqiCameraConf", "SICConfMessage", "SICMessage"], [("res", 2)]⟩
      ⟨"NaoqiCameraConf", ["NaoqiCameraConf", "SICConfMessage", "SICMessage"], [("res", 4)]⟩
      ⟨"SICConfMessage", ["SICConfMessage", "SICMessage"], []⟩ (by decide)).1 rfl⟩

/-! ### C8 — input-type validation in `_handle_message` -/

/-- C8: on a component with a non-empty declared input set, a message whose
class-name ancestry matches none of the declared input types is dropped
with a warning and `None` is returned without invoking `on_message`; a
message matching some declared input type is passed to `on_message` and its
result returned. -/
theorem handle_message_validates_inputs {β : Type} (declaredInputs : List String)
    (msgMro : List String) (onMessage : Unit → β) (hne : declaredInputs ≠ []) :
    ((∀ inputCls ∈ declaredInputs, is_sic_instance msgMro inputCls = false) →
      SICComponent._handle_message declaredInputs msgMro onMessage =
        { warned := true, invokedOnMessage := false, result := none }) ∧
    ((∃ inputCls ∈ declaredInputs, is_sic_instance msgMro inputCls = true) →
      SICComponent._handle_message declaredInputs msgMro onMessage =
        { warned := false, invokedOnMessage := true,
          result := some (onMessage ()) }) := by
  have hni : declaredInputs.isEmpty = false := by
    simpa [List.isEmpty_iff] using hne
  unfold SICComponent._handle_message
  constructor
  · intro hnomatch
    have hany : declaredInputs.any (fun inputCls => is_sic_instance msgMro inputCls) = false := by
      simp only [List.any_eq_false]
      intro c hc
      simp [hnomatch c hc]
    simp [hni, hany]
  · intro hmatch
    have hany : declaredInputs.any (fun inputCls => is_sic_instance msgMro inputCls) = true := by
      rcases hmatch with ⟨c, hc, hinst⟩
      simp only [List.any_eq_true]
      exact ⟨c, hc, hinst⟩
    simp [hni, hany]

/-- C8 witness: an `AudioMessage` arriving at a component that declares
only `CompressedImageMessage` is dropped with a warning; a
`CompressedImageMessage` is handled. -/
theorem handle_message_validates_inputs_witness :
    (["CompressedImageMessage"] : List String) ≠ [] ∧
    SICComponent._handle_message ["CompressedImageMessage"]
        ["AudioMessage", "Audio", "SICMessage"] (fun _ => (5 : Nat)) =
      { warned := true, invokedOnMessage := false, result := none } ∧
    SICComponent._handle_message ["CompressedImageMessage"]
        ["CompressedImageMessage", "CompressedImage", "SICMessage"] (fun _ => (5 : Nat)) =
      { warned := false, invokedOnMessage := true, result := some 5 } :=
  ⟨by decide,
    (handle_message_validates_inputs ["CompressedImageMessage"]
      ["AudioMessage", "Audio", "SICMessage"] (fun _ => (5 : Nat)) (by decide)).1
      (by decide),
    (handle_message_validates_inputs ["CompressedImageMessage"]
      ["CompressedImageMessage", "CompressedImage", "SICMessage"] (fun _ => (5 : Nat))
      (by decide)).2 ⟨"CompressedImageMessage", by decide, by decide⟩⟩

/-! ### C2 — blocking request/reply protocol -/

/-- C2 counterexample: the claim says that on timeout the call unsubscribes
and raises `TimeoutError`; at the concrete input below (no arrival within
the timeout) the call raises `TimeoutError` after performing only the
subscribe and the publish — the `unregister_callback` call sits after the
raise and is never reached, so no unsubscribe happens. -/
theorem request_timeout_does_not_unsubscribe :
    SICRedis.request "ch" pingRequest7 [] true =
      RequestResult.timeout [RedisOp.subscribe "ch", RedisOp.publish "ch"] ∧
    ([RedisOp.subscribe "ch", RedisOp.publish "ch"].contains
      (RedisOp.unsubscribe "ch")) = false := by
  decide

/-- C2 (amended): for every blocking `SICRedis.request(channel, q, timeout)`
with a set request id, the reply handler is subscribed on the same channel
before the request is published, and the call returns only a message that
is not itself a `SICRequest` and whose `_request_id` equals `q`'s; if no
such message arrives within the timeout, the call raises `TimeoutError` —
but leaves the reply handler subscribed (only the success path
unsubscribes). -/
theorem request_subscribes_first_and_filters_replies (channel : String)
    (request : RMsg) (arrivals : List RMsg) (i : Int)
    (hid : request.request_id = some i) :
    (∀ trace r, SICRedis.request channel request arrivals true =
        RequestResult.reply trace r →
      trace = [RedisOp.subscribe channel, RedisOp.publish channel,
               RedisOp.unsubscribe channel] ∧
      r.isRequest = false ∧ r.request_id = request.request_id) ∧
    (∀ trace, SICRedis.request channel request arrivals true =
        RequestResult.timeout trace →
      trace = [RedisOp.subscribe channel, RedisOp.publish channel] ∧
      (∀ m ∈ arrivals, awaitReplyAccepts request m = false)) := by
  have hne : ¬ request.request_id = none := by
    simp [hid]
  constructor
  · intro trace r h
    rw [SICRedis.request, if_neg hne, if_pos rfl] at h
    cases hfind : arrivals.find? (awaitReplyAccepts request) with
    | none =>
      rw [hfind] at h
      cases h
    | some r0 =>
      rw [hfind] at h
      simp only [RequestResult.reply.injEq] at h
      obtain ⟨htrace, hr⟩ := h
      subst htrace
      rw [hr] at hfind
      have haccept : awaitReplyAccepts request r = true := List.find?_some hfind
      unfold awaitReplyAccepts at haccept
      rw [Bool.and_eq_true, Bool.not_eq_true', beq_iff_eq] at haccept
      exact ⟨rfl, haccept.1, haccept.2⟩
  · intro trace h
    rw [SICRedis.request, if_neg hne, if_pos rfl] at h
    cases hfind : arrivals.find? (awaitReplyAccepts request) with
    | none =>
      rw [hfind] at h
      cases h
      refine ⟨rfl, ?_⟩
      intro m hm
      have := List.find?_eq_none.mp hfind m hm
      simpa using this
    | some r0 =>
      rw [hfind] at h
      cases h

/-- C2 witness: a matching pong arriving on the channel is returned; it is
not a request and carries the request's id. -/
theorem request_subscribes_first_witness :
    pingRequest7.request_id = some 7 ∧
    SICRedis.request "ch" pingRequest7 [pongReply7] true =
      RequestResult.reply
        [RedisOp.subscribe "ch", RedisOp.publish "ch", RedisOp.unsubscribe "ch"]
        pongReply7 ∧
    pongReply7.isRequest = false ∧ pongReply7.request_id = pingRequest7.request_id :=
  ⟨rfl, by decide,
    ((request_subscribes_first_and_filters_replies "ch" pingRequest7 [pongReply7] 7
      rfl).1
      [RedisOp.subscribe "ch", RedisOp.publish "ch", RedisOp.unsubscribe "ch"]
      pongReply7 (by decide)).2⟩

/-! ### C6 — stop_component effects -/

/-- C6 counterexample: at the concrete manager state with a live camera
component whose reservation key is set, `stop_component` returns Success
but the reservation entry `reservation:CameraSensor:10.0.0.5` is still in
the key-value store — the stop path never releases any reservation, so the
claim "the reservation for that component-id is released" fails. -/
theorem stop_component_leaves_reservation :
    (SICComponentManager.stop_component_request cameraManagerState "abc123").2 =
      ManagerReply.success ∧
    (reservationKey "CameraSensor:10.0.0.5", "client1") ∈
      (SICComponentManager.stop_component_request cameraManagerState "abc123").1.kv := by
  decide

/-- C6 (amended): for every live component id, after the manager's
stop-component operation returns Success the component's
`data_stream:<channel>` key has been deleted and the component is evicted
from the live set, while every other key-value entry — reservations
included — is untouched (the stop path releases no reservation); for an id
not in the live set the manager replies IgnoreRequest and changes
nothing. -/
theorem stop_component_amended (st : ManagerState) (componentId : String) :
    (∀ component, lookupComponent st.active_components componentId = some component →
      (SICComponentManager.stop_component_request st componentId).2 =
        ManagerReply.success ∧
      (∀ v, (dataStreamKey component.component_channel, v) ∉
        (SICComponentManager.stop_component_request st componentId).1.kv) ∧
      lookupComponent
        (SICComponentManager.stop_component_request st componentId).1.active_components
        componentId = none ∧
      (∀ entry ∈ st.kv, entry.1 ≠ dataStreamKey component.component_channel →
        entry ∈ (SICComponentManager.stop_component_request st componentId).1.kv)) ∧
    (lookupComponent st.active_components componentId = none →
      SICComponentManager.stop_component_request st componentId =
        (st, ManagerReply.ignoreRequest)) := by
  constructor
  · intro component hfound
    unfold SICComponentManager.stop_component_request
    rw [hfound]
    refine ⟨rfl, ?_, ?_, ?_⟩
    · intro v hmem
      unfold SICRedis.unset_data_stream kvDelete at hmem
      have := (List.mem_filter.mp hmem).2
      simp at this
    · unfold lookupComponent
      rw [List.find?_eq_none.mpr, Option.map_none']
      intro entry hentry
      have := (List.mem_filter.mp hentry).2
      simp_all
    · intro entry hentry hne
      unfold SICRedis.unset_data_stream kvDelete
      refine List.mem_filter.mpr ⟨hentry, ?_⟩
      simp [hne]
  · intro hnone
    unfold SICComponentManager.stop_component_request
    rw [hnone]

/-- C6 witness: both branches at concrete inputs — stopping the live
component `abc123` succeeds, removes its data-stream key and evicts it
while the reservation survives untouched; stopping the unknown id
`missing` replies IgnoreRequest and leaves the state unchanged. -/
theorem stop_component_amended_witness :
    ((SICComponentManager.stop_component_request cameraManagerState "abc123").2 =
      ManagerReply.success ∧
      (dataStreamKey "abc123", "descriptor") ∉
        (SICComponentManager.stop_component_request cameraManagerState "abc123").1.kv ∧
      lookupComponent
        (SICComponentManager.stop_component_request cameraManagerState
          "abc123").1.active_components "abc123" = none ∧
      (reservationKey "CameraSensor:10.0.0.5", "client1") ∈
        (SICComponentManager.stop_component_request cameraManagerState "abc123").1.kv) ∧
    SICComponentManager.stop_component_request cameraManagerState "missing" =
      (cameraManagerState, ManagerReply.ignoreRequest) := by
  have hmain := stop_component_amended cameraManagerState "abc123"
  have hlive := hmain.1
    { component_channel := "abc123", component_id := "CameraSensor:10.0.0.5" }
    (by decide)
  have hmiss := (stop_component_amended cameraManagerState "missing").2 (by decide)
  refine ⟨⟨hlive.1, hlive.2.1 "descriptor", hlive.2.2.1, ?_⟩, hmiss⟩
  exact hlive.2.2.2 (reservationKey "CameraSensor:10.0.0.5", "client1") (by decide)
    (by decide)

/-! ### C4 — reference timestamp and output stamping -/

/-- Sanity: `qSub` is subtraction on `ℚ`. -/
theorem qSub_eq_sub (a b : ℚ) : qSub a b = a - b :=
  (Rat.sub_def a b).symm

/-- Sanity: `qAbs` is the absolute value on `ℚ`. -/
theorem qAbs_eq_abs (a : ℚ) : qAbs a = |a| := by
  unfold qAbs
  by_cases h : a < 0
  · rw [if_pos h, abs_of_neg h]
  · rw [if_neg h, abs_of_nonneg (le_of_not_lt h)]

/-- Sanity: the alignment threshold is one half. -/
theorem max_timestamp_diff_eq_half : MAX_TIMESTAMP_DIFF_SECONDS = 1 / 2 := by
  unfold MAX_TIMESTAMP_DIFF_SECONDS
  rw [Rat.mkRat_eq_div]
  norm_num

/-- Helper: `pyMin2` is Mathlib's `min`. -/
theorem pyMin2_eq_min (a b : ℚ) : pyMin2 a b = min a b := by
  rw [pyMin2, min_def]

/-- Helper: folding `pyMin2` is folding `min`. -/
theorem foldl_pyMin2_eq_foldl_min (xs : List ℚ) :
    ∀ x : ℚ, xs.foldl pyMin2 x = xs.foldl min x := by
  induction xs with
  | nil =>
    intro x
    rfl
  | cons y ys ih =>
    intro x
    rw [List.foldl_cons, List.foldl_cons, pyMin2_eq_min, ih]

/-- Helper: a left fold of `min` is a lower bound of its initial value. -/
theorem foldl_min_le_init (xs : List ℚ) : ∀ x : ℚ, xs.foldl min x ≤ x := by
  induction xs with
  | nil =>
    intro x
    exact le_refl x
  | cons y ys ih =>
    intro x
    calc ys.foldl min (min x y) ≤ min x y := ih (min x y)
      _ ≤ x := min_le_left x y

/-- Helper: a left fold of `min` is a lower bound of every list element. -/
theorem foldl_min_le_mem (xs : List ℚ) :
    ∀ x y : ℚ, y ∈ xs → xs.foldl min x ≤ y := by
  induction xs with
  | nil =>
    intro x y hy
    cases hy
  | cons z zs ih =>
    intro x y hy
    rcases List.mem_cons.mp hy with hz | hmem
    · subst hz
      calc zs.foldl min (min x y) ≤ min x y := foldl_min_le_init zs (min x y)
        _ ≤ y := min_le_right x y
    · exact ih (min x z) y hmem

/-- Helper: a left fold of `min` is its initial value or a list element. -/
theorem foldl_min_mem (xs : List ℚ) :
    ∀ x : ℚ, xs.foldl min x = x ∨ xs.foldl min x ∈ xs := by
  induction xs with
  | nil =>
    intro x
    exact Or.inl rfl
  | cons z zs ih =>
    intro x
    rcases ih (min x z) with heq | hmem
    · rcases min_cases x z with ⟨hmin, _⟩ | ⟨hmin, _⟩
      · exact Or.inl (by rw [List.foldl_cons, heq, hmin])
      · refine Or.inr (List.mem_cons.mpr (Or.inl ?_))
        rw [List.foldl_cons, heq, hmin]
    · exact Or.inr (List.mem_cons.mpr (Or.inr hmem))

/-- Helper: every buffer's front element appears in `headsOf`'s output. -/
theorem headsOf_front (buffers : List (List SMsg)) :
    ∀ heads, headsOf buffers = some heads →
      ∀ b ∈ buffers, ∃ hd, b.head? = some hd ∧ hd ∈ heads := by
  induction buffers with
  | nil =>
    intro heads _ b hb
    cases hb
  | cons b0 bs ih =>
    intro heads hheads b hb
    unfold headsOf at hheads
    cases hhead : b0.head? with
    | none =>
      rw [hhead] at hheads
      cases hheads
    | some h0 =>
      rw [hhead] at hheads
      cases hrest : headsOf bs with
      | none =>
        rw [hrest] at hheads
        cases hheads
      | some hs =>
        rw [hrest] at hheads
        simp only [Option.some.injEq] at hheads
        subst hheads
        rcases List.mem_cons.mp hb with hb0 | hbs
        · subst hb0
          exact ⟨h0, hhead, List.mem_cons_self h0 hs⟩
        · rcases ih hs hrest b hbs with ⟨hd, hhd, hmem⟩
          exact ⟨hd, hhd, List.mem_cons.mpr (Or.inr hmem)⟩

/-- Helper: every element of `headsOf`'s output is some buffer's front. -/
theorem headsOf_source (buffers : List (List SMsg)) :
    ∀ heads, headsOf buffers = some heads →
      ∀ hd ∈ heads, ∃ b ∈ buffers, b.head? = some hd := by
  induction buffers with
  | nil =>
    intro heads hheads hd hhd
    unfold headsOf at hheads
    simp only [Option.some.injEq] at hheads
    subst hheads
    cases hhd
  | cons b0 bs ih =>
    intro heads hheads hd hhd
    unfold headsOf at hheads
    cases hhead : b0.head? with
    | none =>
      rw [hhead] at hheads
      cases hheads
    | some h0 =>
      rw [hhead] at hheads
      cases hrest : headsOf bs with
      | none =>
        rw [hrest] at hheads
        cases hheads
      | some hs =>
        rw [hrest] at hheads
        simp only [Option.some.injEq] at hheads
        subst hheads
        rcases List.mem_cons.mp hhd with hd0 | hds
        · subst hd0
          exact ⟨b0, List.mem_cons_self b0 bs, hhead⟩
        · rcases ih hs hrest hd hds with ⟨b, hb, hbhd⟩
          exact ⟨b, List.mem_cons.mpr (Or.inr hb), hbhd⟩

/-- C4: whenever the service worker loop successfully pops aligned messages
(`_pop_aligned_messages` returns), the reference timestamp is the minimum
over all input buffers of the front (newest) message's timestamp — a lower
bound of every buffer's front timestamp that is attained by some buffer —
and any non-null value returned by `execute()` is published by
`_process_and_output` with its `_timestamp` set to exactly that reference
timestamp (only `_previous_component_name` is additionally stamped; the
timestamp is never replaced by local time). -/
theorem aligned_pop_reference_timestamp_and_stamping (expectedInputCount : Nat)
    (buffers : List (List SMsg)) (msgs : List SMsg) (reference : ℚ)
    (remaining : List (List SMsg)) (componentName : String) (output : SMsg)
    (hpop : SICService._pop_aligned_messages expectedInputCount buffers =
      some (msgs, reference, remaining)) :
    (∀ b ∈ buffers, ∀ hd, b.head? = some hd → reference ≤ hd.timestamp) ∧
    (∃ b ∈ buffers, ∃ hd, b.head? = some hd ∧ hd.timestamp = reference) ∧
    SICService._process_and_output componentName (some output) reference =
      some { output with timestamp := reference, prev := componentName } := by
  unfold SICService._pop_aligned_messages at hpop
  split at hpop
  · cases hpop
  · split at hpop
    · cases hpop
    · next ref0 href =>
      split at hpop
      · cases hpop
      · next selected hcoll =>
        simp only [Option.some.injEq, Prod.mk.injEq] at hpop
        obtain ⟨-, hrefeq, -⟩ := hpop
        subst hrefeq
        unfold SICService._get_reference_timestamp at href
        split at href
        · cases href
        · next heads hheads =>
          cases hts : heads.map SMsg.timestamp with
          | nil =>
            rw [hts] at href
            cases href
          | cons t0 ts =>
            rw [hts] at href
            simp only [pyMinQ, Option.some.injEq] at href
            rw [foldl_pyMin2_eq_foldl_min] at href
            refine ⟨?_, ?_, rfl⟩
            · intro b hb hd hhd
              rcases headsOf_front buffers heads hheads b hb with ⟨hd2, hhd2, hdm⟩
              rw [hhd] at hhd2
              cases hhd2
              have htm : hd.timestamp ∈ heads.map SMsg.timestamp :=
                List.mem_map_of_mem SMsg.timestamp hdm
              rw [hts] at htm
              rcases List.mem_cons.mp htm with h0 | hmem
              · rw [← href, h0]
                exact foldl_min_le_init ts t0
              · rw [← href]
                exact foldl_min_le_mem ts t0 hd.timestamp hmem
            · have hmem : ref0 ∈ heads.map SMsg.timestamp := by
                rw [hts]
                rcases foldl_min_mem ts t0 with heq | hmem
                · rw [← href, heq]
                  exact List.mem_cons_self t0 ts
                · rw [← href]
                  exact List.mem_cons.mpr (Or.inr hmem)
              rcases List.mem_map.mp hmem with ⟨hd, hdm, hdts⟩
              rcases headsOf_source buffers heads hheads hd hdm with ⟨b, hb, hbhd⟩
              exact ⟨b, hb, hd, hbhd, hdts⟩

/-- C4 witness: two one-message buffers at timestamps 10 s and 10.5 s align
with reference timestamp 10 (the minimum of the two front timestamps), and
the produced output is stamped with exactly that timestamp. -/
theorem aligned_pop_reference_timestamp_witness :
    SICService._pop_aligned_messages 2
        [[⟨"A", "camA", 10, 1⟩], [⟨"B", "camB", mkRat 21 2, 2⟩]] =
      some ([⟨"A", "camA", 10, 1⟩, ⟨"B", "camB", mkRat 21 2, 2⟩], 10, [[], []]) ∧
    (∀ b ∈ [[(⟨"A", "camA", 10, 1⟩ : SMsg)], [⟨"B", "camB", mkRat 21 2, 2⟩]],
      ∀ hd, b.head? = some hd → (10 : ℚ) ≤ hd.timestamp) ∧
    SICService._process_and_output "FaceDetection" (some ⟨"BBox", "", 99, 7⟩) 10 =
      some ⟨"BBox", "FaceDetection", 10, 7⟩ := by
  have hpop : SICService._pop_aligned_messages 2
      [[⟨"A", "camA", 10, 1⟩], [⟨"B", "camB", mkRat 21 2, 2⟩]] =
      some ([⟨"A", "camA", 10, 1⟩, ⟨"B", "camB", mkRat 21 2, 2⟩], 10, [[], []]) := by
    decide
  have h := aligned_pop_reference_timestamp_and_stamping 2
    [[⟨"A", "camA", 10, 1⟩], [⟨"B", "camB", mkRat 21 2, 2⟩]]
    [⟨"A", "camA", 10, 1⟩, ⟨"B", "camB", mkRat 21 2, 2⟩] 10 [[], []]
    "FaceDetection" ⟨"BBox", "", 99, 7⟩ hpop
  exact ⟨hpop, h.1, h.2.2⟩

/-! ### C7 — bounded buffer with drop counter -/

/-- Helper: pushing one more message is `appendleft` after pushing the
rest. -/
theorem pushAll_append_singleton {α : Type} (q : MessageQueue α) (ms : List α) (m : α) :
    MessageQueue.pushAll q (ms ++ [m]) = (MessageQueue.pushAll q ms).appendleft m := by
  unfold MessageQueue.pushAll
  rw [List.foldl_append]
  rfl

/-- Helper: the full state of a fresh queue after pushing a message list
with no consumption — the newest `maxlen` messages (newest first), the drop
counter, and one warning for each counter value in `1..dropped` that is a
threshold. -/
theorem pushAll_new_spec {α : Type} (n : Nat) (ms : List α) :
    MessageQueue.pushAll (MessageQueue.new α n) ms =
      { maxlen := n
        items := ms.reverse.take n
        dropped_messages_counter := ms.length - n
        warnings := (List.range' 1 (ms.length - n)).filter
          (fun x => DROP_WARNING_THRESHOLDS.contains x) } := by
  induction ms using List.reverseRecOn with
  | nil =>
    simp [MessageQueue.pushAll, MessageQueue.new]
  | append_singleton ms m ih =>
    rw [pushAll_append_singleton, ih]
    unfold MessageQueue.appendleft
    simp only [List.length_take, List.length_reverse]
    have hitems : (m :: ms.reverse.take n).take n = (ms ++ [m]).reverse.take n := by
      rw [List.reverse_append, List.reverse_singleton, List.singleton_append]
      cases n with
      | zero =>
        simp
      | succ j =>
        rw [List.take_succ_cons, List.take_succ_cons, List.take_take,
          Nat.min_eq_left (Nat.le_succ j)]
    by_cases hfull : n ≤ ms.length
    · have hcond : (min n ms.length == n) = true := by
        simp [Nat.min_eq_left hfull]
      rw [if_pos hcond]
      have hd1 : ms.length - n + 1 = (ms ++ [m]).length - n := by
        simp only [List.length_append, List.length_singleton]
        omega
      have hw : (if DROP_WARNING_THRESHOLDS.contains (ms.length - n + 1) then
            (List.range' 1 (ms.length - n)).filter
              (fun x => DROP_WARNING_THRESHOLDS.contains x) ++ [ms.length - n + 1]
          else
            (List.range' 1 (ms.length - n)).filter
              (fun x => DROP_WARNING_THRESHOLDS.contains x)) =
          (List.range' 1 (ms.length - n + 1)).filter
            (fun x => DROP_WARNING_THRESHOLDS.contains x) := by
        rw [List.range'_concat, List.filter_append, Nat.one_mul,
          Nat.add_comm 1 (ms.length - n)]
        by_cases hc : DROP_WARNING_THRESHOLDS.contains (ms.length - n + 1) = true
        · rw [if_pos hc]
          congr 1
          simp only [List.elem_eq_mem, decide_eq_true_eq] at hc
          simp [hc]
        · rw [if_neg hc]
          conv =>
            lhs
            rw [← List.append_nil ((List.range' 1 (ms.length - n)).filter
              (fun x => DROP_WARNING_THRESHOLDS.contains x))]
          congr 1
          simp only [Bool.not_eq_true, List.elem_eq_mem,
            decide_eq_false_iff_not] at hc
          simp [hc]
      rw [← hd1, hitems, hw]
    · have hlt : ms.length < n := Nat.lt_of_not_le hfull
      have hcond : (min n ms.length == n) = false := by
        rw [Nat.min_eq_right (Nat.le_of_lt hlt)]
        simp
        omega
      rw [if_neg (by simp [hcond])]
      have hd0 : ms.length - n = 0 := by omega
      have hd0' : (ms ++ [m]).length - n = 0 := by
        simp only [List.length_append, List.length_singleton]
        omega
      rw [hd0', hd0, hitems]

/-- C7: for a `MessageQueue` with `maxlen = MAX_MESSAGE_BUFFER_SIZE` and any
`k ≥ 0`, after `maxlen + k` `appendleft` calls with no consumption the queue
holds exactly the newest `maxlen` messages (newest first, the oldest having
been evicted first), `dropped_messages_counter` equals `k`, and a drop
warning was logged exactly for the counter values that are thresholds in
{5, 10, 50, 100, 200, 1000, 5000, 10000} (and were reached, i.e. are at
most `k`). -/
theorem message_queue_bounded_drop (k : Nat) (ms : List Nat)
    (hlen : ms.length = MAX_MESSAGE_BUFFER_SIZE + k) :
    (MessageQueue.pushAll (MessageQueue.new Nat MAX_MESSAGE_BUFFER_SIZE) ms).items =
      ms.reverse.take MAX_MESSAGE_BUFFER_SIZE ∧
    (MessageQueue.pushAll (MessageQueue.new Nat MAX_MESSAGE_BUFFER_SIZE)
      ms).dropped_messages_counter = k ∧
    (∀ w, w ∈ (MessageQueue.pushAll (MessageQueue.new Nat MAX_MESSAGE_BUFFER_SIZE)
        ms).warnings ↔
      w ∈ DROP_WARNING_THRESHOLDS ∧ w ≤ k) := by
  rw [pushAll_new_spec]
  have hk : ms.length - MAX_MESSAGE_BUFFER_SIZE = k := by
    omega
  rw [hk]
  refine ⟨rfl, rfl, ?_⟩
  intro w
  rw [List.mem_filter]
  constructor
  · intro ⟨hr, hc⟩
    simp only [List.elem_eq_mem, decide_eq_true_eq] at hc
    have := List.mem_range'_1.mp hr
    exact ⟨hc, by omega⟩
  · intro ⟨hmem, hle⟩
    have hpos : 1 ≤ w := by
      simp only [DROP_WARNING_THRESHOLDS, List.mem_cons, List.not_mem_nil,
        or_false] at hmem
      omega
    refine ⟨List.mem_range'_1.mpr ⟨hpos, by omega⟩, ?_⟩
    simp only [List.elem_eq_mem, decide_eq_true_eq]
    exact hmem

/-- C7 witness: pushing 15 messages into a fresh queue of capacity 10
leaves the newest ten, a drop counter of 5 and exactly the one warning at
threshold 5. -/
theorem message_queue_bounded_drop_witness :
    (List.range 15).length = MAX_MESSAGE_BUFFER_SIZE + 5 ∧
    (MessageQueue.pushAll (MessageQueue.new Nat MAX_MESSAGE_BUFFER_SIZE)
      (List.range 15)).items = (List.range 15).reverse.take MAX_MESSAGE_BUFFER_SIZE ∧
    (MessageQueue.pushAll (MessageQueue.new Nat MAX_MESSAGE_BUFFER_SIZE)
      (List.range 15)).dropped_messages_counter = 5 ∧
    ((5 ∈ (MessageQueue.pushAll (MessageQueue.new Nat MAX_MESSAGE_BUFFER_SIZE)
        (List.range 15)).warnings ↔ 5 ∈ DROP_WARNING_THRESHOLDS ∧ 5 ≤ 5) ∧
      (MessageQueue.pushAll (MessageQueue.new Nat MAX_MESSAGE_BUFFER_SIZE)
        (List.range 15)).warnings = [5]) := by
  have h := message_queue_bounded_drop 5 (List.range 15) (by decide)
  exact ⟨by decide, h.1, h.2.1, h.2.2 5, by decide⟩
